import Mathlib

/-!
Shallow embedding of the prompt-dispatch service
(`src/modules/worker/worker-client.service.ts`,
`src/modules/prompt/prompt.controller.ts`,
`src/api/v1/search-intelligence/searcher/services/searcher.service.ts`)
together with theorems settling the frozen claims about the
natural-language specification of the repository.

Conventions: every pure computation of the source is translated into an
executable Lean function; HTTP traffic, the key/value store and the job
queue are made explicit as function-valued environments passed to the
translated code.  Machine integers of the source are modelled as `Nat`
(the relevant quantities — HTTP status codes, attempt counters, worker
indices, byte values — are non-negative and never overflow in the
source's ranges).  Thrown JavaScript errors are modelled with `Except`.
-/

namespace DispatchService

/-- JS `hay.includes(needle)` on lists of characters: `true` iff `n`
occurs as a contiguous sublist of the argument. -/
def listHasSub (n : List Char) : List Char → Bool
  | [] => n.isEmpty
  | c :: t => n.isPrefixOf (c :: t) || listHasSub n t

/-- Model of JavaScript `String.prototype.includes`. -/
def strIncludes (hay needle : String) : Bool :=
  listHasSub needle.toList hay.toList

/-- JS `a || b` for an optional string `a` (both `undefined` and the
empty string are falsy). -/
def jsOr (a : Option String) (b : String) : String :=
  match a with
  | some s => if s = "" then b else s
  | none => b

/-- `SearchResult` of `worker-client.service.ts`: the payload of a
successful worker search. -/
structure SearchResult where
  json : String
  raw_text : Option String
deriving DecidableEq, Repr

/-- One parsed JSON body coming back from a worker.  The source
declares several overlapping interfaces (`ErrorResponse`, the `/search`
success body); both are plain JSON objects, modelled by one record with
optional fields matching the source's optional properties. -/
structure WorkerBody where
  ok : Bool := false
  result : Option SearchResult := none
  error : Option String := none
  message : Option String := none
  raw_text : Option String := none
  retry_other_worker : Bool := false
deriving DecidableEq, Repr

/-- The observable outcome of the `fetch` performed by `requestOne` for
one worker call: a 2xx response with parsed JSON body, a non-2xx
response (whose body may or may not parse as JSON — `none` models a
parse failure), or a thrown network/timeout error. -/
inductive WireResponse where
  | httpOk (status : Nat) (body : WorkerBody)
  | httpErr (status : Nat) (body : Option WorkerBody) (text : String)
  | netErr (msg : String)
deriving DecidableEq, Repr

/-- The record `requestOne` resolves with:
`{ ok, value?, status?, error? }`. -/
structure ReqResult where
  ok : Bool
  value : Option WorkerBody
  status : Option Nat
  error : Option String
deriving DecidableEq, Repr

/-- `requestOne` of `worker-client.service.ts` (lines 95-140), as a
function of the wire outcome.  For a non-2xx response the error string
is `HTTP <status> - <errorText>` with
`errorText = body.error || body.message || text.slice(0,200)`, or
`Failed to parse error response` when the body is not JSON. -/
def requestOne : WireResponse → ReqResult
  | .httpOk status body =>
      { ok := true, value := some body, status := some status, error := none }
  | .httpErr status body text =>
      let errorText :=
        match body with
        | some b => jsOr b.error (jsOr b.message (text.take 200))
        | none => "Failed to parse error response"
      { ok := false, value := body, status := some status,
        error := some ("HTTP " ++ toString status ++ " - " ++ errorText) }
  | .netErr msg =>
      { ok := false, value := none, status := none, error := some msg }

/-- A thrown JS error as the dispatcher observes it: its message plus
the extra fields the worker client attaches (`ErrorWithExtras`). -/
structure ThrownError where
  message : String
  blocked : Bool := false
  raw_text : Option String := none
deriving DecidableEq, Repr

/-- JS `worker || 1` (a 0 worker index is falsy and defaults to 1). -/
def workerOr1 (worker : Nat) : Nat := if worker = 0 then 1 else worker

/-- `search` of `worker-client.service.ts` (lines 233-283): classifies
the wire outcome of `POST /search` on worker `worker`, returning the
result payload or throwing.  A 503 with `retry_other_worker` throws a
`blocked` error; a 422 whose body carries `error:"empty_result"` throws
an error with message `Worker <w>: HTTP 422 - empty_result` and the
body's `raw_text` (or `''`) attached; every other failure throws
`Worker error (worker=<w>): <res.error || 'request failed'>`; a 2xx
body lacking `ok`/`result` throws `Invalid response from worker`. -/
def search (worker : Nat) (wire : WireResponse) : Except ThrownError SearchResult :=
  let res := requestOne wire
  if !res.ok || res.value.isNone then
    if res.status = some 503 ∧ (res.value.map (·.retry_other_worker)).getD false then
      .error { message := "Worker " ++ toString (workerOr1 worker) ++ " blocked: " ++
                 jsOr (res.value.bind (·.error)) "This request is not supported",
               blocked := true }
    else if res.status = some 422 ∧ res.value.bind (·.error) = some "empty_result" then
      .error { message := "Worker " ++ toString (workerOr1 worker) ++ ": HTTP 422 - empty_result",
               raw_text := some (jsOr (res.value.bind (·.raw_text)) "") }
    else
      .error { message := "Worker error (worker=" ++ toString (workerOr1 worker) ++ "): " ++
                 jsOr res.error "request failed" }
  else
    match res.value with
    | some data =>
        match data.result with
        | some r => if data.ok then .ok r else .error { message := "Invalid response from worker" }
        | none => .error { message := "Invalid response from worker" }
    | none => .error { message := "Invalid response from worker" }

/-- `WorkerHealth` of the source: the parsed `/health` body. -/
structure WorkerHealth where
  ok : Bool
  busy : Option Bool := none
  ready : Option Bool := none
  error : Option String := none
deriving DecidableEq, Repr

/-- The availability test `h.ok && !h.busy && h.ready !== false` used by
`findFreeWorker` and the preferred-worker probe (an absent `busy` is
falsy; an absent `ready` is not `false`). -/
def isFree (h : WorkerHealth) : Bool :=
  h.ok && !(h.busy.getD false) && !(h.ready = some false)

/-- `findFreeWorker` of `worker-client.service.ts` (lines 303-319):
probe the health of workers `1..N` and return the lowest 1-based index
whose snapshot passes `isFree`, or `none` when no worker qualifies.
`probe w` is the health snapshot worker `w` reports for this round. -/
def findFreeWorker (N : Nat) (probe : Nat → WorkerHealth) : Option Nat :=
  let healthChecks := (List.range N).map (fun i => probe (i + 1))
  (healthChecks.findIdx? isFree).map (· + 1)

/-- The value `searchWithRetry` resolves with:
`SearchResult & { usedWorker: number }`. -/
structure DispatchResult where
  json : String
  raw_text : Option String
  usedWorker : Nat
deriving DecidableEq, Repr

/-- The only failure `searchWithRetry` itself raises: the circuit
breaker (`Search failed: All workers unavailable after <maxAttempts>
attempts.`). -/
inductive DispatchError where
  | exhausted (maxAttempts : Nat)
deriving DecidableEq, Repr

/-- `retryDelayMs` of `searchWithRetry`: the sleep between rounds when
no worker is free. -/
def retryDelayMs : Nat := 2000

/-- JS `result.json || result.raw_text || ''` computed on a successful
search result before returning it. -/
def jsonOrRaw (r : SearchResult) : String :=
  if r.json = "" then (jsOr r.raw_text "") else r.json

/-- The `catch` classification of `searchWithRetry` (lines 371-407 and
340-353): an error whose message contains `'422'` or `'empty_result'`
is returned as an empty-result success carrying the error's `raw_text`
(or `''`); every other error — blocked, busy or otherwise — makes the
loop `continue`. -/
inductive CatchAction where
  | returnEmpty (raw : String)
  | continueLoop
deriving DecidableEq, Repr

/-- Classify a caught error exactly as the source's `catch` blocks do:
the `'422' / 'empty_result'` substring test decides an empty-result
return; the blocked flag and the `'423' / 'Locked' / 'busy'` substring
tests only choose the log line, all of them ending in `continue`. -/
def classifyCatch (e : ThrownError) : CatchAction :=
  if strIncludes e.message "422" || strIncludes e.message "empty_result" then
    .returnEmpty (jsOr e.raw_text "")
  else
    .continueLoop

/-- What one round of the dynamic loop does after its health probe:
return a result, re-loop immediately, or sleep `delayMs` and re-loop. -/
inductive StepResult where
  | done (r : DispatchResult)
  | continueNoSleep
  | continueSleep (delayMs : Nat)
deriving DecidableEq, Repr

/-- One iteration of the dynamic-selection loop of `searchWithRetry`
(lines 357-416): probe all `N` workers, and if one is free, run
`search` on it — returning on success or on an error classified as an
empty result, re-looping immediately otherwise; with no free worker,
sleep `retryDelayMs` and re-loop. -/
def dynamicStep (N : Nat) (probe : Nat → WorkerHealth) (wire : WireResponse) : StepResult :=
  match findFreeWorker N probe with
  | some freeWorker =>
      match search freeWorker wire with
      | .ok result =>
          .done { json := jsonOrRaw result, raw_text := result.raw_text,
                  usedWorker := freeWorker }
      | .error e =>
          match classifyCatch e with
          | .returnEmpty raw =>
              .done { json := "", raw_text := some raw, usedWorker := freeWorker }
          | .continueLoop => .continueNoSleep
  | none => .continueSleep retryDelayMs

/-- The environment of one dispatch: what the workers would answer at
each point the dispatcher might ask.  `health t w` is worker `w`'s
health snapshot in dynamic round `t`; `response t` is the wire outcome
of the search the dispatcher would issue in round `t`;
`hintHealth`/`hintResponse` play the same roles for the one
preferred-worker probe and search. -/
structure Env where
  health : Nat → Nat → WorkerHealth
  response : Nat → WireResponse
  hintHealth : WorkerHealth
  hintResponse : WireResponse

/-- The `while (attempt < maxAttempts)` loop of `searchWithRetry`:
`t` is the round index (previous rounds consumed), `fuel` the attempts
still allowed; exhausting the budget raises the circuit-breaker
error. -/
def runDynamic (N maxAttempts : Nat) (env : Env) : Nat → Nat → Except DispatchError DispatchResult
  | _, 0 => .error (.exhausted maxAttempts)
  | t, fuel + 1 =>
      match dynamicStep N (env.health t) (env.response t) with
      | .done r => .ok r
      | _ => runDynamic N maxAttempts env (t + 1) fuel

/-- `searchWithRetry` of `worker-client.service.ts` (lines 321-426).
`N` is the number of configured endpoints (`getWorkerCount`),
`configMaxAttempts` the configured `retry.maxAttempts`; the loop is
bounded by `maxAttempts = configMaxAttempts * 10`.  A preferred worker
in `[1..N]` whose health passes `isFree` gets exactly one search: a
success or an error classified as empty returns immediately with
`usedWorker` the hint; anything else falls through to the dynamic
loop. -/
def searchWithRetry (N configMaxAttempts : Nat) (preferredWorker : Option Nat)
    (env : Env) : Except DispatchError DispatchResult :=
  let maxAttempts := configMaxAttempts * 10
  let dynamic := runDynamic N maxAttempts env 0 maxAttempts
  match preferredWorker with
  | some p =>
      if 1 ≤ p ∧ p ≤ N then
        if isFree env.hintHealth then
          match search p env.hintResponse with
          | .ok result =>
              .ok { json := jsonOrRaw result, raw_text := result.raw_text, usedWorker := p }
          | .error e =>
              match classifyCatch e with
              | .returnEmpty raw => .ok { json := "", raw_text := some raw, usedWorker := p }
              | .continueLoop => dynamic
        else dynamic
      else dynamic
  | none => dynamic

/-! ## Searcher service (`searcher.service.ts`): job status and batches -/

/-- The public job states (`JobState` of `job-status.dto.ts`). -/
inductive JobState where
  | pending
  | processing
  | completed
  | failed
deriving DecidableEq, Repr

/-- `mapState` of `searcher.service.ts` (lines 322-336): translate an
internal Bull queue state into a public `JobState`; `waiting` and
`delayed` map to `pending`, and so does any unrecognized state. -/
def mapState (state : String) : JobState :=
  match state with
  | "waiting" => .pending
  | "delayed" => .pending
  | "active" => .processing
  | "completed" => .completed
  | "failed" => .failed
  | _ => .pending

/-- The slice of a stored Bull job record that the status paths read:
its queue state and the `batchIndex` stored in `job.data`. -/
structure StoredJob where
  state : String
  batchIndex : Option Nat := none
deriving DecidableEq, Repr

/-- The slice of `JobStatusDto` that `getBatchStatus` aggregates. -/
structure JobStatusDto where
  jobId : String
  status : JobState
deriving DecidableEq, Repr

/-- `getStatus` of `searcher.service.ts` (lines 161-183) restricted to
the fields the batch path consumes: look the job up in the queue
(`store`), throw `NotFoundException` when absent, and report the
mapped state. -/
def getStatus (store : String → Option StoredJob) (jobId : String) :
    Except String JobStatusDto :=
  match store jobId with
  | none => .error ("Job " ++ jobId ++ " not found")
  | some job => .ok { jobId := jobId, status := mapState job.state }

/-- The record `getBatchStatus` resolves with. -/
structure BatchStatus where
  batchId : String
  total : Nat
  completed : Nat
  processing : Nat
  pending : Nat
  failed : Nat
  jobs : List JobStatusDto
deriving DecidableEq, Repr

/-- The sort key `getBatchStatus` uses for a DTO:
`jobDataMap.get(jobId)?.batchIndex ?? 0` (the map holds
`job.data.batchIndex ?? 0` for every job that was found). -/
def batchSortKey (store : String → Option StoredJob) (j : JobStatusDto) : Nat :=
  match store j.jobId with
  | some job => job.batchIndex.getD 0
  | none => 0

/-- `getBatchStatus` of `searcher.service.ts` (lines 190-243).
`jobIds` is the member set loaded from `batch:<id>:jobs`; an empty set
raises `NotFoundException`.  Each job's status is fetched, a fetch
hitting a removed job being silently skipped (the `try/catch` around
`getStatus`); the aggregate counts are the per-state filters of the
fetched list, `total` is its length, and `jobs` is that list sorted by
stored `batchIndex` (the source's `Array.prototype.sort` with the
`aIndex - bIndex` comparator is a stable sort; it is modelled by the
stable `insertionSort`). -/
def getBatchStatus (store : String → Option StoredJob) (batchId : String)
    (jobIds : List String) : Except String BatchStatus :=
  if jobIds.length = 0 then
    .error ("Batch " ++ batchId ++ " not found")
  else
    let jobs := jobIds.filterMap (fun jobId =>
      match getStatus store jobId with
      | .ok dto => some dto
      | .error _ => none)
    .ok { batchId := batchId
          total := jobs.length
          completed := (jobs.filter (fun j => j.status = .completed)).length
          processing := (jobs.filter (fun j => j.status = .processing)).length
          pending := (jobs.filter (fun j => j.status = .pending)).length
          failed := (jobs.filter (fun j => j.status = .failed)).length
          jobs := jobs.insertionSort (fun a b =>
            batchSortKey store a ≤ batchSortKey store b) }

/-! ## Prompt controller (`prompt.controller.ts`): worker query validation -/

/-- The result of JS `Number(workerQuery)` on the `?worker=` query
string, restricted to the values at issue: `NaN` (any non-numeric
string) or an integral finite value.  `Math.trunc` is the identity on
the integral values modelled here. -/
inductive JsNum where
  | nan
  | int (n : Int)
deriving DecidableEq, Repr

/-- The `?worker=` validation of `createPrompt`
(`prompt.controller.ts` lines 34-55): an absent parameter passes
`none` through; a non-finite value or a value `< 1` is rejected with
`BAD_REQUEST`; anything else is truncated and forwarded to the enqueue
call as the preferred worker.  `.ok w` means the request is accepted
and a job is enqueued with hint `w`. -/
def createPromptWorker (workerQuery : Option JsNum) : Except String (Option Int) :=
  match workerQuery with
  | none => .ok none
  | some .nan => .error "BAD_REQUEST"
  | some (.int n) => if n < 1 then .error "BAD_REQUEST" else .ok (some n)

/-! ## Cursor pagination (`getAllJobs`, `searcher.service.ts` lines 281-310)

The page token is `base64(JSON.stringify({offset}))`; decoding base64-
decodes the token, parses the JSON and takes `offset ?? 0`, any
failure being caught and leaving the offset at 0.  Base64 and the
serialized object are modelled concretely over byte lists; the JSON
parser is modelled on the canonical serialization this code produces
(every other byte sequence taking the source's catch branch, i.e.
offset 0). -/

/-- The base64 alphabet (RFC 4648, as produced by
`Buffer.toString('base64')`). -/
def base64Alphabet : List Char :=
  "ABCDEFGHIJKLMNOPQRSTUVWXYZabcdefghijklmnopqrstuvwxyz0123456789+/".toList

/-- The base64 digit for a 6-bit group. -/
def b64Char (k : Nat) : Char := base64Alphabet.getD k 'A'

/-- The 6-bit group of a base64 digit, `none` for a character outside
the alphabet. -/
def b64Val (c : Char) : Option Nat := base64Alphabet.findIdx? (· = c)

/-- Base64-encode a byte list (standard alphabet, `=` padding), as
`Buffer.toString('base64')` does. -/
def base64EncodeBytes : List Nat → List Char
  | [] => []
  | [b1] =>
      [b64Char (b1 / 4), b64Char (b1 % 4 * 16), '=', '=']
  | [b1, b2] =>
      [b64Char (b1 / 4), b64Char (b1 % 4 * 16 + b2 / 16), b64Char (b2 % 16 * 4), '=']
  | b1 :: b2 :: b3 :: rest =>
      b64Char (b1 / 4) :: b64Char (b1 % 4 * 16 + b2 / 16) ::
      b64Char (b2 % 16 * 4 + b3 / 64) :: b64Char (b3 % 64) ::
      base64EncodeBytes rest

/-- Base64-decode a character list back to bytes; `none` on input that
is not padded base64 (the source funnels any decode/parse failure into
offset 0). -/
def base64DecodeChars : List Char → Option (List Nat)
  | [] => some []
  | c1 :: c2 :: c3 :: c4 :: rest =>
      match b64Val c1, b64Val c2 with
      | some k1, some k2 =>
          if c3 = '=' then
            if c4 = '=' ∧ rest = [] then some [k1 * 4 + k2 / 16] else none
          else
            match b64Val c3 with
            | some k3 =>
                if c4 = '=' then
                  if rest = [] then some [k1 * 4 + k2 / 16, k2 % 16 * 16 + k3 / 4] else none
                else
                  match b64Val c4 with
                  | some k4 =>
                      (base64DecodeChars rest).map
                        (fun bs => (k1 * 4 + k2 / 16) :: (k2 % 16 * 16 + k3 / 4) ::
                                   (k3 % 4 * 64 + k4) :: bs)
                  | none => none
            | none => none
      | _, _ => none
  | _ => none

/-- The decimal ASCII bytes of `n` as `JSON.stringify` renders a
number (big-endian digits, `0` rendered as `"0"`). -/
def digitBytes (n : Nat) : List Nat :=
  if n = 0 then [48] else ((Nat.digits 10 n).reverse.map (· + 48))

/-- The UTF-8 bytes of `JSON.stringify({offset: n})`, i.e. of
`\x7b"offset":<n>\x7d` (123/125 are the braces, 34 the quote, 58 the
colon, 111 102 102 115 101 116 the letters of `offset`). -/
def offsetJsonBytes (n : Nat) : List Nat :=
  [123, 34, 111, 102, 102, 115, 101, 116, 34, 58] ++ digitBytes n ++ [125]

/-- Read the decimal digits closing with the `\x7d` byte (125):
the number-then-closing-brace tail of the canonical serialization. -/
def parseNumThenBrace (acc : Nat) : List Nat → Option Nat
  | [] => none
  | b :: rest =>
      if b = 125 then (if rest = [] then some acc else none)
      else if 48 ≤ b ∧ b ≤ 57 then parseNumThenBrace (acc * 10 + (b - 48)) rest
      else none

/-- Model of `JSON.parse(...).offset` on the decoded token bytes,
faithful on the canonical serialization `offsetJsonBytes` and mapping
every other byte sequence to `none` — the branch the source's
`catch` / `?? 0` turns into offset 0. -/
def parseOffsetBytes (bs : List Nat) : Option Nat :=
  match bs with
  | 123 :: 34 :: 111 :: 102 :: 102 :: 115 :: 101 :: 116 :: 34 :: 58 :: b :: rest =>
      if 48 ≤ b ∧ b ≤ 57 then parseNumThenBrace 0 (b :: rest) else none
  | _ => none

/-- The `nextPageToken` serialization of `getAllJobs` (lines 305-310):
`Buffer.from(JSON.stringify({offset})).toString('base64')`. -/
def encodePageToken (offset : Nat) : String :=
  String.mk (base64EncodeBytes (offsetJsonBytes offset))

/-- The `startIndex` computation of `getAllJobs` (lines 281-291):
base64-decode the page token, JSON-parse it and take `offset ?? 0`,
any failure being caught and leaving the offset at 0.  Total: every
token yields an offset, malformed ones yielding 0. -/
def decodeStartIndex (pageToken : String) : Nat :=
  match base64DecodeChars pageToken.toList with
  | some bs => (parseOffsetBytes bs).getD 0
  | none => 0

/-! ## Concrete dispatch environments and stores

Closed instances used to evaluate the embedding at specific inputs:
worker answers recorded for one dispatch, and job stores for batch
queries. -/

/-- Environment: every worker healthy, the search answering 2xx with a
result whose `json` is non-empty. -/
def envOkJson : Env where
  health := fun _ _ => { ok := true }
  response := fun _ => .httpOk 200 { ok := true, result := some { json := "result-json", raw_text := some "raw" } }
  hintHealth := { ok := true }
  hintResponse := .httpOk 200 { ok := true, result := some { json := "result-json", raw_text := some "raw" } }

/-- Environment: every worker healthy, the search answering 422 whose
body carries `error:"bad_input"` — NOT an `empty_result` body. -/
def envBare422 : Env where
  health := fun _ _ => { ok := true }
  response := fun _ => .httpErr 422 (some { error := some "bad_input" }) "bad input body"
  hintHealth := { ok := false }
  hintResponse := .netErr "unused"

/-- Environment: every worker healthy, the search answering 422 with an
`empty_result` body carrying `raw_text:"nothing"`. -/
def envEmpty422 : Env where
  health := fun _ _ => { ok := true }
  response := fun _ => .httpErr 422 (some { error := some "empty_result", raw_text := some "nothing" }) "e"
  hintHealth := { ok := false }
  hintResponse := .netErr "unused"

/-- Environment: every worker healthy, the search answering 2xx success
whose result has an empty `json` and a non-empty `raw_text`. -/
def envEmptyJsonRaw : Env where
  health := fun _ _ => { ok := true }
  response := fun _ => .httpOk 200 { ok := true, result := some { json := "", raw_text := some "plain answer" } }
  hintHealth := { ok := false }
  hintResponse := .netErr "unused"

/-- Environment: every worker healthy, the search dying with a network
error (a spec-`transient` outcome whose message avoids the magic
substrings). -/
def envNetFail : Env where
  health := fun _ _ => { ok := true }
  response := fun _ => .netErr "socket hang up"
  hintHealth := { ok := false }
  hintResponse := .netErr "unused"

/-- Environment: every worker reports `busy` at every round. -/
def envAllBusy : Env where
  health := fun _ _ => { ok := true, busy := some true }
  response := fun _ => .netErr "never sent"
  hintHealth := { ok := true, busy := some true }
  hintResponse := .netErr "never sent"

/-- Environment: the hinted worker is free and answers success; the
dynamic pool never reports free (so the result can only come from the
hint). -/
def envHintOk : Env where
  health := fun _ _ => { ok := false }
  response := fun _ => .netErr "unused"
  hintHealth := { ok := true }
  hintResponse := .httpOk 200 { ok := true, result := some { json := "hint-json", raw_text := none } }

/-- Environment: the hinted worker is free but answers 422 with body
`error:"bad_hint"` — NOT an `empty_result` body, a spec-`transient`
outcome; the dynamic pool is free and answers a distinct success
payload, so a fall-through to dynamic selection would be visible in
the returned value. -/
def envHintBare422 : Env where
  health := fun _ _ => { ok := true }
  response := fun _ => .httpOk 200 { ok := true, result := some { json := "dynamic-json", raw_text := some "dyn" } }
  hintHealth := { ok := true }
  hintResponse := .httpErr 422 (some { error := some "bad_hint" }) "bad hint body"

/-- Job store with only job `"1"` present (`"2"` TTL-evicted). -/
def storeOneEvicted : String → Option StoredJob :=
  fun jobId => if jobId = "1" then some { state := "completed" } else none

/-- Job store with jobs `"1"` and `"2"` present in different states. -/
def storeBoth : String → Option StoredJob :=
  fun jobId =>
    if jobId = "1" then some { state := "completed", batchIndex := some 0 }
    else if jobId = "2" then some { state := "active", batchIndex := some 1 }
    else none

/-- The aggregate `storeBoth` batch answer (both jobs present, one
completed and one active). -/
def batchBothResult : BatchStatus where
  batchId := "b"
  total := 2
  completed := 1
  processing := 1
  pending := 0
  failed := 0
  jobs := [{ jobId := "1", status := .completed }, { jobId := "2", status := .processing }]

/-! ## Helper lemmas -/

/-- A sublist of the right part of an append is a sublist of the whole. -/
theorem listHasSub_append_of_right (n post pre : List Char)
    (h : listHasSub n post = true) : listHasSub n (pre ++ post) = true := by
  induction pre with
  | nil => simpa using h
  | cons c t ih => simp [listHasSub, ih]

/-- `strIncludes` is preserved by prepending onto the haystack. -/
theorem strIncludes_append_right (a b n : String)
    (h : strIncludes b n = true) : strIncludes (a ++ b) n = true := by
  unfold strIncludes at *
  exact listHasSub_append_of_right _ _ _ h

/-- `jsOr` with an empty fallback is just the stored value (or `""`). -/
theorem jsOr_some_empty (s : String) : jsOr (some s) "" = s := by
  unfold jsOr
  split <;> simp_all

/-- Characterization of `findFreeWorker`: it answers `some w` exactly
when `w` is the lowest 1-based index in `[1..N]` whose probe passes
`isFree`. -/
theorem findFreeWorker_some_iff (N : Nat) (probe : Nat → WorkerHealth) (w : Nat) :
    findFreeWorker N probe = some w ↔
      1 ≤ w ∧ w ≤ N ∧ isFree (probe w) = true ∧
        ∀ v, 1 ≤ v → v < w → isFree (probe v) = false := by
  unfold findFreeWorker
  simp only [Option.map_eq_some']
  constructor
  · rintro ⟨i, hfind, rfl⟩
    rw [List.findIdx?_eq_some_iff_getElem] at hfind
    obtain ⟨hlen, hp, hmin⟩ := hfind
    simp only [List.length_map, List.length_range] at hlen
    simp only [List.getElem_map, List.getElem_range] at hp
    refine ⟨Nat.le_add_left 1 i, by omega, hp, ?_⟩
    intro v hv1 hvlt
    have hv : v - 1 < i := by omega
    have := hmin (v - 1) hv
    simp only [List.getElem_map, List.getElem_range] at this
    have hveq : v - 1 + 1 = v := by omega
    rw [hveq] at this
    exact Bool.not_eq_true _ |>.mp this
  · rintro ⟨h1, hN, hfree, hmin⟩
    refine ⟨w - 1, ?_, by omega⟩
    rw [List.findIdx?_eq_some_iff_getElem]
    have hlen : w - 1 < ((List.range N).map (fun i => probe (i + 1))).length := by
      simp only [List.length_map, List.length_range]; omega
    refine ⟨hlen, ?_, ?_⟩
    · simp only [List.getElem_map, List.getElem_range]
      have : w - 1 + 1 = w := by omega
      rw [this]; exact hfree
    · intro j hj
      simp only [List.getElem_map, List.getElem_range]
      have := hmin (j + 1) (Nat.le_add_left 1 j) (by omega)
      simp [this]

/-- `findFreeWorker` answers `none` exactly when no probe in `[1..N]`
passes `isFree`. -/
theorem findFreeWorker_none_iff (N : Nat) (probe : Nat → WorkerHealth) :
    findFreeWorker N probe = none ↔
      ∀ w, 1 ≤ w → w ≤ N → isFree (probe w) = false := by
  unfold findFreeWorker
  simp only [Option.map_eq_none', List.findIdx?_eq_none_iff, List.mem_map, List.mem_range]
  constructor
  · intro h w h1 hN
    have := h (probe w) ⟨w - 1, by omega, by congr 1; omega⟩
    simpa using this
  · rintro h x ⟨i, hi, rfl⟩
    simpa using h (i + 1) (Nat.le_add_left 1 i) (by omega)

/-- The bounds a `done` step puts on `usedWorker`. -/
theorem dynamicStep_done_bounds (N : Nat) (probe : Nat → WorkerHealth)
    (wire : WireResponse) (r : DispatchResult)
    (h : dynamicStep N probe wire = .done r) :
    1 ≤ r.usedWorker ∧ r.usedWorker ≤ N := by
  unfold dynamicStep at h
  cases hf : findFreeWorker N probe with
  | none => simp [hf] at h
  | some w =>
    have hw := (findFreeWorker_some_iff N probe w).mp hf
    cases hs : search w wire with
    | ok result =>
        simp only [hf, hs] at h
        injection h with h
        subst h
        exact ⟨hw.1, hw.2.1⟩
    | error e =>
        cases hc : classifyCatch e with
        | returnEmpty raw =>
            simp only [hf, hs, hc] at h
            injection h with h
            subst h
            exact ⟨hw.1, hw.2.1⟩
        | continueLoop => simp [hf, hs, hc] at h

/-- If no round up to the fuel bound produces a `done` step, the loop
raises the circuit breaker. -/
theorem runDynamic_exhausts (N m : Nat) (env : Env) :
    ∀ fuel t,
      (∀ u, t ≤ u → u < t + fuel →
        ∀ r, dynamicStep N (env.health u) (env.response u) ≠ .done r) →
      runDynamic N m env t fuel = .error (.exhausted m) := by
  intro fuel
  induction fuel with
  | zero => intro t _; rfl
  | succ fuel ih =>
    intro t h
    rw [runDynamic]
    cases hs : dynamicStep N (env.health t) (env.response t) with
    | done r => exact absurd hs (h t (Nat.le_refl t) (by omega) r)
    | continueNoSleep =>
        exact ih (t + 1) (fun u hu hub r => h u (by omega) (by omega) r)
    | continueSleep d =>
        exact ih (t + 1) (fun u hu hub r => h u (by omega) (by omega) r)

/-- The only error the dynamic loop can produce is the circuit
breaker carrying its attempt bound. -/
theorem runDynamic_error_shape (N m : Nat) (env : Env) :
    ∀ fuel t d, runDynamic N m env t fuel = .error d → d = .exhausted m := by
  intro fuel
  induction fuel with
  | zero =>
    intro t d h
    rw [runDynamic] at h
    cases h
    rfl
  | succ fuel ih =>
    intro t d h
    rw [runDynamic] at h
    cases hs : dynamicStep N (env.health t) (env.response t) with
    | done r => rw [hs] at h; cases h
    | continueNoSleep => rw [hs] at h; exact ih (t + 1) d h
    | continueSleep dl => rw [hs] at h; exact ih (t + 1) d h

/-- A successful dynamic loop run carries a worker index in `[1..N]`. -/
theorem runDynamic_ok_bounds (N m : Nat) (env : Env) :
    ∀ fuel t r, runDynamic N m env t fuel = .ok r →
      1 ≤ r.usedWorker ∧ r.usedWorker ≤ N := by
  intro fuel
  induction fuel with
  | zero => intro t r h; rw [runDynamic] at h; cases h
  | succ fuel ih =>
    intro t r h
    rw [runDynamic] at h
    cases hs : dynamicStep N (env.health t) (env.response t) with
    | done r' =>
        rw [hs] at h
        cases h
        exact dynamicStep_done_bounds N _ _ _ hs
    | continueNoSleep => rw [hs] at h; exact ih (t + 1) r h
    | continueSleep dl => rw [hs] at h; exact ih (t + 1) r h

/-- Any error a dispatch raises is the circuit breaker with the
`configMaxAttempts * 10` bound. -/
theorem searchWithRetry_error_shape (N c : Nat) (pref : Option Nat) (env : Env)
    (d : DispatchError) (h : searchWithRetry N c pref env = .error d) :
    d = .exhausted (c * 10) := by
  cases pref with
  | none => exact runDynamic_error_shape N (c * 10) env (c * 10) 0 d h
  | some p =>
    simp only [searchWithRetry] at h
    split at h
    · split at h
      · cases hs : search p env.hintResponse with
        | ok result => simp [hs] at h
        | error e =>
          cases hc : classifyCatch e with
          | returnEmpty raw => simp [hs, hc] at h
          | continueLoop =>
            simp only [hs, hc] at h
            exact runDynamic_error_shape N (c * 10) env (c * 10) 0 d h
      · exact runDynamic_error_shape N (c * 10) env (c * 10) 0 d h
    · exact runDynamic_error_shape N (c * 10) env (c * 10) 0 d h

/-- A `done` step in round 0 is the dispatch's return value (the
budget `c * 10` is positive for any configured `c ≥ 1`). -/
theorem searchWithRetry_step0 (N c : Nat) (env : Env) (hc : 1 ≤ c)
    (r : DispatchResult)
    (hstep : dynamicStep N (env.health 0) (env.response 0) = .done r) :
    searchWithRetry N c none env = .ok r := by
  have h10 : c * 10 = (c * 10 - 1) + 1 := by omega
  rw [show searchWithRetry N c none env = runDynamic N (c * 10) env 0 (c * 10) from rfl,
    h10, runDynamic]
  simp [hstep]

/-- Every DTO has exactly one of the four public states, so the four
status filters partition any job list. -/
theorem status_filters_partition (jobs : List JobStatusDto) :
    (jobs.filter (fun j => j.status = .completed)).length
    + (jobs.filter (fun j => j.status = .processing)).length
    + (jobs.filter (fun j => j.status = .pending)).length
    + (jobs.filter (fun j => j.status = .failed)).length = jobs.length := by
  induction jobs with
  | nil => rfl
  | cons j t ih =>
    cases h : j.status <;>
      simp [List.filter_cons, h] <;> omega

/-- A `filterMap` whose function answers `some` on every member keeps
the length. -/
theorem length_filterMap_of_all_some {α β : Type} (f : α → Option β) (l : List α)
    (h : ∀ a ∈ l, (f a).isSome) : (l.filterMap f).length = l.length := by
  induction l with
  | nil => rfl
  | cons a t ih =>
    have ha := h a (List.mem_cons_self a t)
    cases hfa : f a with
    | none => rw [hfa] at ha; simp at ha
    | some b =>
      simp only [List.filterMap_cons, hfa, List.length_cons]
      rw [ih (fun x hx => h x (List.mem_cons_of_mem a hx))]

/-- The per-job fetch of `getBatchStatus` succeeds exactly on the jobs
the store still holds. -/
theorem batch_fetch_isSome (store : String → Option StoredJob) (jobId : String) :
    (match getStatus store jobId with
      | .ok dto => some dto
      | .error _ => none).isSome = (store jobId).isSome := by
  unfold getStatus
  cases store jobId <;> rfl

/-- Shared shape of a successful `getBatchStatus`: the four counts sum
to `total`, `total` never exceeds the member-set size, and equals it
when every member is still stored. -/
theorem getBatchStatus_ok_counts (store : String → Option StoredJob)
    (batchId : String) (ids : List String) (b : BatchStatus)
    (h : getBatchStatus store batchId ids = .ok b) :
    b.completed + b.processing + b.pending + b.failed = b.total
    ∧ b.total ≤ ids.length
    ∧ ((∀ jobId ∈ ids, (store jobId).isSome) → b.total = ids.length) := by
  unfold getBatchStatus at h
  split at h
  · cases h
  · injection h with h
    subst h
    refine ⟨status_filters_partition _, List.length_filterMap_le _ _, ?_⟩
    intro hall
    apply length_filterMap_of_all_some
    intro jobId hmem
    rw [batch_fetch_isSome]
    exact hall jobId hmem

/-- Decoding a base64 digit inverts encoding on every 6-bit group
(`Fin 64` form, settled by evaluation). -/
theorem b64Val_b64Char_fin : ∀ k : Fin 64, b64Val (b64Char k.val) = some k.val := by decide

/-- Decoding a base64 digit inverts encoding on every 6-bit group. -/
theorem b64Val_b64Char (k : Nat) (h : k < 64) : b64Val (b64Char k) = some k :=
  b64Val_b64Char_fin ⟨k, h⟩

/-- No base64 digit is the padding character (`Fin 64` form). -/
theorem b64Char_ne_pad_fin : ∀ k : Fin 64, b64Char k.val ≠ '=' := by decide

/-- No base64 digit is the padding character. -/
theorem b64Char_ne_pad (k : Nat) (h : k < 64) : b64Char k ≠ '=' :=
  b64Char_ne_pad_fin ⟨k, h⟩

/-- Base64 decoding inverts encoding on every byte list. -/
theorem base64_roundtrip : ∀ bs : List Nat, (∀ b ∈ bs, b < 256) →
    base64DecodeChars (base64EncodeBytes bs) = some bs
  | [], _ => rfl
  | [b1], h => by
      have hb1 : b1 < 256 := h b1 (by simp)
      have h1 : b1 / 4 < 64 := by omega
      have h2 : b1 % 4 * 16 < 64 := by omega
      show base64DecodeChars [b64Char (b1 / 4), b64Char (b1 % 4 * 16), '=', '='] = some [b1]
      simp only [base64DecodeChars, b64Val_b64Char _ h1, b64Val_b64Char _ h2,
        if_pos rfl, and_self, ite_true]
      have : b1 / 4 * 4 + b1 % 4 * 16 / 16 = b1 := by omega
      rw [this]
  | [b1, b2], h => by
      have hb1 : b1 < 256 := h b1 (by simp)
      have hb2 : b2 < 256 := h b2 (by simp)
      have h1 : b1 / 4 < 64 := by omega
      have h2 : b1 % 4 * 16 + b2 / 16 < 64 := by omega
      have h3 : b2 % 16 * 4 < 64 := by omega
      show base64DecodeChars
          [b64Char (b1 / 4), b64Char (b1 % 4 * 16 + b2 / 16), b64Char (b2 % 16 * 4), '='] =
        some [b1, b2]
      simp only [base64DecodeChars, b64Val_b64Char _ h1, b64Val_b64Char _ h2,
        b64Val_b64Char _ h3, if_neg (b64Char_ne_pad _ h3), if_pos rfl, ite_true]
      have e1 : b1 / 4 * 4 + (b1 % 4 * 16 + b2 / 16) / 16 = b1 := by omega
      have e2 : (b1 % 4 * 16 + b2 / 16) % 16 * 16 + b2 % 16 * 4 / 4 = b2 := by omega
      rw [e1, e2]
  | b1 :: b2 :: b3 :: b4 :: rest, h => by
      have hb1 : b1 < 256 := h b1 (by simp)
      have hb2 : b2 < 256 := h b2 (by simp)
      have hb3 : b3 < 256 := h b3 (by simp)
      have h1 : b1 / 4 < 64 := by omega
      have h2 : b1 % 4 * 16 + b2 / 16 < 64 := by omega
      have h3 : b2 % 16 * 4 + b3 / 64 < 64 := by omega
      have h4 : b3 % 64 < 64 := by omega
      have ih := base64_roundtrip (b4 :: rest) (fun b hb => h b (by simp at hb ⊢; tauto))
      show base64DecodeChars
          (b64Char (b1 / 4) :: b64Char (b1 % 4 * 16 + b2 / 16) ::
            b64Char (b2 % 16 * 4 + b3 / 64) :: b64Char (b3 % 64) ::
            base64EncodeBytes (b4 :: rest)) =
        some (b1 :: b2 :: b3 :: b4 :: rest)
      simp only [base64DecodeChars, b64Val_b64Char _ h1, b64Val_b64Char _ h2,
        b64Val_b64Char _ h3, b64Val_b64Char _ h4,
        if_neg (b64Char_ne_pad _ h3), if_neg (b64Char_ne_pad _ h4), ih, Option.map_some']
      have e1 : b1 / 4 * 4 + (b1 % 4 * 16 + b2 / 16) / 16 = b1 := by omega
      have e2 : (b1 % 4 * 16 + b2 / 16) % 16 * 16 + (b2 % 16 * 4 + b3 / 64) / 4 = b2 := by
        omega
      have e3 : (b2 % 16 * 4 + b3 / 64) % 4 * 64 + b3 % 64 = b3 := by omega
      rw [e1, e2, e3]
  | [b1, b2, b3], h => by
      have hb1 : b1 < 256 := h b1 (by simp)
      have hb2 : b2 < 256 := h b2 (by simp)
      have hb3 : b3 < 256 := h b3 (by simp)
      have h1 : b1 / 4 < 64 := by omega
      have h2 : b1 % 4 * 16 + b2 / 16 < 64 := by omega
      have h3 : b2 % 16 * 4 + b3 / 64 < 64 := by omega
      have h4 : b3 % 64 < 64 := by omega
      show base64DecodeChars
          (b64Char (b1 / 4) :: b64Char (b1 % 4 * 16 + b2 / 16) ::
            b64Char (b2 % 16 * 4 + b3 / 64) :: b64Char (b3 % 64) :: []) =
        some [b1, b2, b3]
      simp only [base64DecodeChars, b64Val_b64Char _ h1, b64Val_b64Char _ h2,
        b64Val_b64Char _ h3, b64Val_b64Char _ h4,
        if_neg (b64Char_ne_pad _ h3), if_neg (b64Char_ne_pad _ h4), Option.map_some']
      have e1 : b1 / 4 * 4 + (b1 % 4 * 16 + b2 / 16) / 16 = b1 := by omega
      have e2 : (b1 % 4 * 16 + b2 / 16) % 16 * 16 + (b2 % 16 * 4 + b3 / 64) / 4 = b2 := by
        omega
      have e3 : (b2 % 16 * 4 + b3 / 64) % 4 * 64 + b3 % 64 = b3 := by omega
      rw [e1, e2, e3]

/-- Reading ASCII digits up to the closing brace accumulates their
decimal value. -/
theorem parseNumThenBrace_digits : ∀ (L : List Nat) (acc : Nat), (∀ d ∈ L, d < 10) →
    parseNumThenBrace acc (L.map (· + 48) ++ [125]) =
      some (L.foldl (fun a d => a * 10 + d) acc)
  | [], acc, _ => rfl
  | d :: t, acc, h => by
      have hd : d < 10 := h d (by simp)
      show parseNumThenBrace acc ((d + 48) :: (t.map (· + 48) ++ [125])) = _
      rw [parseNumThenBrace]
      rw [if_neg (by omega), if_pos (by omega)]
      have e : acc * 10 + (d + 48 - 48) = acc * 10 + d := by omega
      rw [e, parseNumThenBrace_digits t (acc * 10 + d) (fun x hx => h x (by simp [hx]))]
      rw [List.foldl_cons]

/-- Folding decimal digits big-endian (most significant first) over an
accumulator computes `acc * 10^len + value`. -/
theorem foldl_reverse_digits (L : List Nat) : ∀ acc : Nat,
    (L.reverse).foldl (fun a d => a * 10 + d) acc =
      acc * 10 ^ L.length + Nat.ofDigits 10 L := by
  induction L with
  | nil => intro acc; simp
  | cons d t ih =>
    intro acc
    simp only [List.reverse_cons, List.foldl_append, List.foldl_cons, List.foldl_nil, ih,
      Nat.ofDigits_cons, List.length_cons]
    ring

/-- The decimal serialization starts with an ASCII digit. -/
theorem digitBytes_head (n : Nat) :
    ∃ d t, digitBytes n = d :: t ∧ 48 ≤ d ∧ d ≤ 57 := by
  unfold digitBytes
  split
  · exact ⟨48, [], rfl, by omega, by omega⟩
  · rename_i hn
    cases hL : (Nat.digits 10 n).reverse with
    | nil =>
      exfalso
      rw [List.reverse_eq_nil_iff, Nat.digits_eq_nil_iff_eq_zero] at hL
      exact hn hL
    | cons d0 t0 =>
      have hd0 : d0 < 10 := by
        apply Nat.digits_lt_base (by norm_num)
        have : d0 ∈ (Nat.digits 10 n).reverse := by rw [hL]; exact List.mem_cons_self d0 t0
        exact List.mem_reverse.mp this
      exact ⟨d0 + 48, t0.map (· + 48), by simp [hL], by omega, by omega⟩

/-- Parsing the decimal serialization of `n` (followed by the closing
brace) recovers `n`. -/
theorem parse_digitBytes (n : Nat) :
    parseNumThenBrace 0 (digitBytes n ++ [125]) = some n := by
  unfold digitBytes
  split
  · rename_i hn
    subst hn
    rfl
  · rename_i hn
    have hd : ∀ d ∈ (Nat.digits 10 n).reverse, d < 10 := fun d hmem =>
      Nat.digits_lt_base (by norm_num) (List.mem_reverse.mp hmem)
    rw [parseNumThenBrace_digits _ 0 hd, foldl_reverse_digits]
    simp [Nat.ofDigits_digits]

/-- Every byte of the canonical `offset` serialization fits a byte. -/
theorem offsetJsonBytes_lt (n : Nat) : ∀ b ∈ offsetJsonBytes n, b < 256 := by
  intro b hb
  unfold offsetJsonBytes at hb
  simp only [List.mem_append, List.mem_cons, List.not_mem_nil, or_false] at hb
  rcases hb with (hb | hb) | hb
  · omega
  · unfold digitBytes at hb
    split at hb
    · have hb48 : b = 48 := by simpa using hb
      omega
    · simp only [List.mem_map] at hb
      obtain ⟨d, hd, rfl⟩ := hb
      have : d < 10 :=
        Nat.digits_lt_base (by norm_num) (List.mem_reverse.mp hd)
      omega
  · omega

/-- The canonical-serialization parser recovers the offset. -/
theorem parseOffset_offsetJson (n : Nat) :
    parseOffsetBytes (offsetJsonBytes n) = some n := by
  obtain ⟨d, t, hdt, hd1, hd2⟩ := digitBytes_head n
  have hsplit : offsetJsonBytes n =
      123 :: 34 :: 111 :: 102 :: 102 :: 115 :: 101 :: 116 :: 34 :: 58 ::
        (digitBytes n ++ [125]) := rfl
  rw [hsplit, hdt, List.cons_append]
  show (if 48 ≤ d ∧ d ≤ 57 then parseNumThenBrace 0 (d :: (t ++ [125])) else none) = some n
  rw [if_pos ⟨hd1, hd2⟩, ← List.cons_append, ← hdt]
  exact parse_digitBytes n

/-! ## Claim theorems -/

/-- C3: the dispatcher's dynamic selection loop runs at most
`maxAttempts = configMaxAttempts * 10` iterations — the no-hint
dispatch literally is `runDynamic` with fuel `c * 10` (first
conjunct); if no iteration up to that bound produces a terminal
`done` (success/empty) step it raises the EXHAUSTED circuit-breaker
error (second conjunct); and EXHAUSTED with that bound is the only
error any dispatch can raise, so the loop neither diverges (it is a
total function) nor returns a partial result (third conjunct). -/
theorem c3_attempt_budget (N c : Nat) (env : Env) :
    searchWithRetry N c none env = runDynamic N (c * 10) env 0 (c * 10)
    ∧ ((∀ t, t < c * 10 →
          ∀ r, dynamicStep N (env.health t) (env.response t) ≠ .done r) →
        searchWithRetry N c none env = .error (.exhausted (c * 10)))
    ∧ (∀ pref d, searchWithRetry N c pref env = .error d → d = .exhausted (c * 10)) := by
  refine ⟨rfl, ?_, ?_⟩
  · intro h
    exact runDynamic_exhausts N (c * 10) env (c * 10) 0
      (fun u _ hub r => h u (by omega) r)
  · intro pref d h
    exact searchWithRetry_error_shape N c pref env d h

/-- Witness for C3 at a concrete input: with one worker reporting busy
in every round and `configMaxAttempts = 1`, the dispatch raises
EXHAUSTED after the 10-iteration budget, and that error carries the
bound. -/
theorem c3_witness :
    searchWithRetry 1 1 none envAllBusy = .error (.exhausted 10)
    ∧ DispatchError.exhausted 10 = .exhausted (1 * 10) := by
  have h1 := (c3_attempt_budget 1 1 envAllBusy).2.1 (fun t _ r hc => by
    rw [show dynamicStep 1 (envAllBusy.health t) (envAllBusy.response t) =
          .continueSleep retryDelayMs from rfl] at hc
    cases hc)
  exact ⟨h1, (c3_attempt_budget 1 1 envAllBusy).2.2 none _ h1⟩

/-- C9: every dispatch that returns a result reports a `usedWorker` in
`[1..N]`, `N` being the number of configured worker endpoints. -/
theorem c9_usedWorker_range (N c : Nat) (pref : Option Nat) (env : Env)
    (r : DispatchResult) (h : searchWithRetry N c pref env = .ok r) :
    1 ≤ r.usedWorker ∧ r.usedWorker ≤ N := by
  cases pref with
  | none =>
    exact runDynamic_ok_bounds N (c * 10) env (c * 10) 0 r h
  | some p =>
    simp only [searchWithRetry] at h
    split at h
    · split at h
      · cases hs : search p env.hintResponse with
        | ok result =>
          simp only [hs] at h
          injection h with h
          subst h
          rename_i hp _
          exact ⟨hp.1, hp.2⟩
        | error e =>
          cases hc : classifyCatch e with
          | returnEmpty raw =>
            simp only [hs, hc] at h
            injection h with h
            subst h
            rename_i hp _
            exact ⟨hp.1, hp.2⟩
          | continueLoop =>
            simp only [hs, hc] at h
            exact runDynamic_ok_bounds N (c * 10) env (c * 10) 0 r h
      · exact runDynamic_ok_bounds N (c * 10) env (c * 10) 0 r h
    · exact runDynamic_ok_bounds N (c * 10) env (c * 10) 0 r h

/-- Witness for C9 at a concrete input: a two-worker pool answering
success on worker 1 yields `usedWorker = 1 ∈ [1..2]`. -/
theorem c9_witness :
    searchWithRetry 2 3 none envOkJson =
      .ok { json := "result-json", raw_text := some "raw", usedWorker := 1 }
    ∧ 1 ≤ (1 : Nat) ∧ (1 : Nat) ≤ 2 := by
  have h : searchWithRetry 2 3 none envOkJson =
      .ok { json := "result-json", raw_text := some "raw", usedWorker := 1 } := by rfl
  exact ⟨h, c9_usedWorker_range 2 3 none envOkJson _ h⟩

/-- C4 counterexample: a spec-`transient` search outcome need not
re-loop.  With one free worker answering 422 whose body carries
`error:"kaput"` (no `empty_result`), the step returns a terminal
empty-success instead of continuing, because the thrown message
`Worker error (worker=1): HTTP 422 - kaput` contains `'422'`. -/
theorem c4_counterexample :
    dynamicStep 1 (fun _ => { ok := true })
        (.httpErr 422 (some { error := some "kaput" }) "body") =
      .done { json := "", raw_text := some "", usedWorker := 1 } := by rfl

/-- C4 (amended): each dynamic round probes workers `1..N` and picks
the lowest index passing `ok && !busy && ready ≠ false` (first
conjunct, both directions); with no free worker the round sleeps
`retryDelayMs = 2000` ms (second conjunct); and a search error whose
message contains neither `'422'` nor `'empty_result'` — blocked, busy
or any other retried error — re-loops immediately without sleeping
(third conjunct).  The amendment: spec-transient errors whose message
contains `'422'` do not re-loop (see the counterexample); the no-sleep
re-loop holds for the outcomes the catch actually retries. -/
theorem c4_selection_and_sleep (N : Nat) (probe : Nat → WorkerHealth)
    (wire : WireResponse) :
    (∀ w, findFreeWorker N probe = some w ↔
        1 ≤ w ∧ w ≤ N ∧ isFree (probe w) = true ∧
          ∀ v, 1 ≤ v → v < w → isFree (probe v) = false)
    ∧ (findFreeWorker N probe = none →
        dynamicStep N probe wire = .continueSleep retryDelayMs ∧ retryDelayMs = 2000)
    ∧ (∀ w e, findFreeWorker N probe = some w →
        search w wire = .error e →
        strIncludes e.message "422" = false →
        strIncludes e.message "empty_result" = false →
        dynamicStep N probe wire = .continueNoSleep) := by
  refine ⟨findFreeWorker_some_iff N probe, ?_, ?_⟩
  · intro h
    refine ⟨?_, rfl⟩
    unfold dynamicStep
    rw [h]
  · intro w e hf hs h1 h2
    have hc : classifyCatch e = .continueLoop := by
      unfold classifyCatch
      rw [h1, h2]
      rfl
    simp [dynamicStep, hf, hs, hc]

/-- Witness for C4 at concrete inputs: an all-busy probe makes the
round sleep `retryDelayMs`, and a free worker whose search dies with a
network error re-loops without sleeping. -/
theorem c4_witness :
    dynamicStep 1 (fun _ => { ok := true, busy := some true }) (.netErr "x") =
      .continueSleep retryDelayMs
    ∧ dynamicStep 1 (fun _ => { ok := true }) (.netErr "socket hang up") =
      .continueNoSleep := by
  constructor
  · exact ((c4_selection_and_sleep 1 (fun _ => { ok := true, busy := some true })
      (.netErr "x")).2.1 (by rfl)).1
  · exact (c4_selection_and_sleep 1 (fun _ => { ok := true })
      (.netErr "socket hang up")).2.2 1
      { message := "Worker error (worker=1): socket hang up" }
      (by rfl) (by rfl) (by decide) (by decide)

/-- C1 counterexample: a worker answering 422 with body
`error:"bad_input"` — a spec-`transient` outcome, not an
`empty_result` — is returned by the dispatcher as a successful empty
result (`json = ""`) instead of being retried, because the thrown
message contains the substring `'422'`. -/
theorem c1_counterexample :
    searchWithRetry 1 3 none envBare422 =
      .ok { json := "", raw_text := some "", usedWorker := 1 } := by rfl

/-- C1 (amended): the dispatcher absorbs and retries exactly the
thrown errors whose message contains neither `'422'` nor
`'empty_result'` — such a round re-loops (first conjunct) and an error
can only surface as the EXHAUSTED circuit breaker (second conjunct).
The amendment the counterexample forces: any error whose message
contains `'422'` — in particular a 422 response without an
`empty_result` body — is returned as a successful empty result
(third conjunct), not treated as transient. -/
theorem c1_transient_absorption (N c : Nat) (env : Env) :
    (∀ t fuel w e,
        findFreeWorker N (env.health t) = some w →
        search w (env.response t) = .error e →
        strIncludes e.message "422" = false →
        strIncludes e.message "empty_result" = false →
        runDynamic N (c * 10) env t (fuel + 1) = runDynamic N (c * 10) env (t + 1) fuel)
    ∧ (∀ pref d, searchWithRetry N c pref env = .error d → d = .exhausted (c * 10))
    ∧ (∀ t w e,
        findFreeWorker N (env.health t) = some w →
        search w (env.response t) = .error e →
        strIncludes e.message "422" = true →
        dynamicStep N (env.health t) (env.response t) =
          .done { json := "", raw_text := some (jsOr e.raw_text ""), usedWorker := w }) := by
  refine ⟨?_, fun pref d h => searchWithRetry_error_shape N c pref env d h, ?_⟩
  · intro t fuel w e hf hs h1 h2
    have hc : classifyCatch e = .continueLoop := by
      unfold classifyCatch
      rw [h1, h2]
      rfl
    rw [runDynamic]
    simp [dynamicStep, hf, hs, hc]
  · intro t w e hf hs h1
    have hc : classifyCatch e = .returnEmpty (jsOr e.raw_text "") := by
      unfold classifyCatch
      rw [h1]
      rfl
    simp [dynamicStep, hf, hs, hc]

/-- Witness for C1 at a concrete input: a network-error round (message
`Worker error (worker=1): socket hang up`, free of the magic
substrings) makes the loop retry — consuming one unit of fuel and
moving to the next round — and the budget-exhaustion error of the
all-busy dispatch carries the `3 * 10` bound. -/
theorem c1_witness :
    runDynamic 1 (3 * 10) envNetFail 0 1 = runDynamic 1 (3 * 10) envNetFail 1 0
    ∧ DispatchError.exhausted 30 = .exhausted (3 * 10) := by
  constructor
  · exact (c1_transient_absorption 1 3 envNetFail).1 0 0 1
      { message := "Worker error (worker=1): socket hang up" }
      (by rfl) (by rfl) (by decide) (by decide)
  · exact (c1_transient_absorption 1 3 envAllBusy).2.1 none (.exhausted 30) (by rfl)

/-- C2 counterexample: a worker answering 2xx success with
`result.json = ""` and `raw_text = "plain answer"` makes the
dispatcher return `json = "plain answer"` — the `json` field is NOT
returned as-is (the `result.json || result.raw_text || ''` fallback
replaces an empty `json`). -/
theorem c2_counterexample :
    searchWithRetry 1 3 none envEmptyJsonRaw =
      .ok { json := "plain answer", raw_text := some "plain answer", usedWorker := 1 }
    ∧ ("plain answer" : String) ≠ "" := by
  exact ⟨by rfl, by decide⟩

/-- C2 (amended): on a 422 response whose body carries
`error:"empty_result"`, the dispatch returns success with `json = ""`
and the body's `raw_text` carried through (an absent `raw_text`
becoming `""`) — first conjunct; on a 2xx success body the dispatch
returns `result.json` when it is non-empty, and otherwise substitutes
`result.raw_text` (or `""`) via `jsonOrRaw`, carrying `raw_text`
as-is — second conjunct.  The amendment the counterexample forces is
only the success half: `json` is returned as-is only when non-empty. -/
theorem c2_return_shapes (N c w : Nat) (env : Env) (hc : 1 ≤ c)
    (hw : findFreeWorker N (env.health 0) = some w) :
    (∀ body text, env.response 0 = .httpErr 422 (some body) text →
        body.error = some "empty_result" →
        searchWithRetry N c none env =
          .ok { json := "", raw_text := some (jsOr body.raw_text ""), usedWorker := w })
    ∧ (∀ st body res, env.response 0 = .httpOk st body →
        body.ok = true → body.result = some res →
        searchWithRetry N c none env =
          .ok { json := jsonOrRaw res, raw_text := res.raw_text, usedWorker := w }) := by
  constructor
  · intro body text hresp hbe
    apply searchWithRetry_step0 N c env hc
    have hsearch : search w (env.response 0) =
        .error { message := "Worker " ++ toString (workerOr1 w) ++ ": HTTP 422 - empty_result",
                 blocked := false, raw_text := some (jsOr body.raw_text "") } := by
      rw [hresp]
      unfold search requestOne
      simp [hbe]
    have hmsg : strIncludes ("Worker " ++ toString (workerOr1 w) ++ ": HTTP 422 - empty_result")
        "422" = true := by
      apply strIncludes_append_right
      decide
    have hc2 : classifyCatch
        { message := "Worker " ++ toString (workerOr1 w) ++ ": HTTP 422 - empty_result",
          blocked := false, raw_text := some (jsOr body.raw_text "") } =
        .returnEmpty (jsOr body.raw_text "") := by
      unfold classifyCatch
      simp only [hmsg, Bool.true_or, if_pos]
      rw [jsOr_some_empty]
    simp [dynamicStep, hw, hsearch, hc2]
  · intro st body res hresp hok hres
    apply searchWithRetry_step0 N c env hc
    have hsearch : search w (env.response 0) = .ok res := by
      rw [hresp]
      unfold search requestOne
      simp [hok, hres]
    simp [dynamicStep, hw, hsearch]

/-- Witness for C2 at a concrete input: a 422 `empty_result` body with
`raw_text:"nothing"` completes the dispatch with `json = ""` and
`raw_text = "nothing"`. -/
theorem c2_witness :
    searchWithRetry 1 3 none envEmpty422 =
      .ok { json := "", raw_text := some "nothing", usedWorker := 1 } := by
  have h := (c2_return_shapes 1 3 1 envEmpty422 (by decide) (by rfl)).1
    { error := some "empty_result", raw_text := some "nothing" } "e" rfl rfl
  simpa [jsOr] using h

/-- C5 counterexample: a hinted search that fails with a
spec-`transient` outcome need not fall through to dynamic selection.
With hint 1 free and answering 422 whose body carries
`error:"bad_hint"` (no `empty_result`), the hinted dispatch returns an
empty success with `usedWorker = 1` (first conjunct), even though
dynamic selection in the same environment would have produced a
different payload (second conjunct) — so the failed hinted search did
NOT fall through. -/
theorem c5_counterexample :
    searchWithRetry 1 3 (some 1) envHintBare422 =
      .ok { json := "", raw_text := some "", usedWorker := 1 }
    ∧ searchWithRetry 1 3 none envHintBare422 =
      .ok { json := "dynamic-json", raw_text := some "dyn", usedWorker := 1 } := by
  exact ⟨by rfl, by rfl⟩

/-- C5 (amended): the worker hint is advisory.  For a hint
`p ∈ [1..N]` whose probe passes `isFree`, the dispatcher issues
exactly one search on `p`: a success returns immediately with
`usedWorker = p` (first conjunct) and an error the catch classifies as
an empty result — its message containing `'422'` or `'empty_result'`,
which includes a bare 422 without an `empty_result` body — also
returns with `usedWorker = p` (second conjunct); only an unhealthy
probe (third conjunct) or a search error containing neither substring
(fourth conjunct) makes the dispatch literally equal to the hint-free
dispatch — dynamic selection with no further preference for `p`.  The
amendment the counterexample forces: "on any other outcome falls
through" shrinks to the outcomes the catch actually retries,
`'422'`-message errors being returned as empty successes instead. -/
theorem c5_hint_advisory (N c p : Nat) (env : Env) (hp : 1 ≤ p ∧ p ≤ N) :
    (∀ result, isFree env.hintHealth = true →
        search p env.hintResponse = .ok result →
        searchWithRetry N c (some p) env =
          .ok { json := jsonOrRaw result, raw_text := result.raw_text, usedWorker := p })
    ∧ (∀ e raw, isFree env.hintHealth = true →
        search p env.hintResponse = .error e →
        classifyCatch e = .returnEmpty raw →
        searchWithRetry N c (some p) env =
          .ok { json := "", raw_text := some raw, usedWorker := p })
    ∧ (isFree env.hintHealth = false →
        searchWithRetry N c (some p) env = searchWithRetry N c none env)
    ∧ (∀ e, isFree env.hintHealth = true →
        search p env.hintResponse = .error e →
        classifyCatch e = .continueLoop →
        searchWithRetry N c (some p) env = searchWithRetry N c none env) := by
  refine ⟨?_, ?_, ?_, ?_⟩
  · intro result hfree hs
    simp [searchWithRetry, hp, hfree, hs]
  · intro e raw hfree hs hcc
    simp [searchWithRetry, hp, hfree, hs, hcc]
  · intro hfree
    simp [searchWithRetry, hp, hfree]
  · intro e hfree hs hcc
    simp [searchWithRetry, hp, hfree, hs, hcc]

/-- Witness for C5 at a concrete input: hint `1` of a one-worker pool,
free and answering success, completes with `usedWorker = 1` and the
hint's payload. -/
theorem c5_witness :
    searchWithRetry 1 3 (some 1) envHintOk =
      .ok { json := "hint-json", raw_text := none, usedWorker := 1 } := by
  have h := (c5_hint_advisory 1 3 1 envHintOk ⟨Nat.le_refl 1, Nat.le_refl 1⟩).1
    { json := "hint-json", raw_text := none } (by rfl) (by rfl)
  simpa [jsonOrRaw] using h

/-- C6 counterexample: with `N = 3` configured workers, the request
`POST /prompts?worker=4` — `worker = N + 1` — passes `createPrompt`'s
validation (`Number.isFinite` and `≥ 1` are its only checks), so the
job IS enqueued with hint 4 instead of being rejected with
`BAD_REQUEST`. -/
theorem c6_counterexample :
    createPromptWorker (some (.int 4)) = .ok (some 4) := rfl

/-- C6 (amended): `?worker=0` — and more generally any value below 1,
or a non-numeric value — is rejected with `BAD_REQUEST` before any
job is enqueued (first three conjuncts); `?worker=N+1` is accepted and
enqueued, and at dispatch time the out-of-range hint is ignored: the
dispatch equals the hint-free dispatch (fourth conjunct). -/
theorem c6_worker_validation :
    createPromptWorker (some (.int 0)) = .error "BAD_REQUEST"
    ∧ (∀ n : Int, n < 1 → createPromptWorker (some (.int n)) = .error "BAD_REQUEST")
    ∧ createPromptWorker (some .nan) = .error "BAD_REQUEST"
    ∧ (∀ N c env, searchWithRetry N c (some (N + 1)) env = searchWithRetry N c none env) := by
  refine ⟨rfl, ?_, rfl, ?_⟩
  · intro n hn
    simp [createPromptWorker, hn]
  · intro N c env
    simp only [searchWithRetry]
    rw [if_neg (by omega)]

/-- Witness for C6 at concrete inputs: `?worker=-2` is rejected, and
with `N = 3` the out-of-range hint 4 dispatches exactly like no
hint. -/
theorem c6_witness :
    createPromptWorker (some (.int (-2))) = .error "BAD_REQUEST"
    ∧ searchWithRetry 3 3 (some 4) envAllBusy = searchWithRetry 3 3 none envAllBusy := by
  exact ⟨c6_worker_validation.2.1 (-2) (by decide),
         c6_worker_validation.2.2.2 3 3 envAllBusy⟩

/-- C7 counterexample: a batch with `k = 2` enqueued children of which
one record was TTL-evicted answers `total = 1`, not `total = k = 2` —
`getBatchStatus` counts the still-fetchable jobs, so `total == k`
fails under eviction. -/
theorem c7_counterexample :
    (getBatchStatus storeOneEvicted "b" ["1", "2"]).map (fun b => b.total) = .ok 1
    ∧ (["1", "2"] : List String).length = 2 := ⟨rfl, rfl⟩

/-- C7 (amended): for a batch of `k` enqueued children,
`getBatchStatus` returns `total` equal to the number of children whose
records are still fetchable; the four aggregate counts sum exactly to
`total`, hence `completed + processing + pending + failed ≤ k`, with
`total = k` (and so equality) when no child record has been
TTL-evicted.  The amendment the counterexample forces: `total == k`
only holds absent evictions; evictions shrink `total` and the counts
together. -/
theorem c7_batch_counts (store : String → Option StoredJob) (batchId : String)
    (ids : List String) (b : BatchStatus)
    (h : getBatchStatus store batchId ids = .ok b) :
    b.completed + b.processing + b.pending + b.failed = b.total
    ∧ b.completed + b.processing + b.pending + b.failed ≤ ids.length
    ∧ ((∀ jobId ∈ ids, (store jobId).isSome) →
        b.total = ids.length
        ∧ b.completed + b.processing + b.pending + b.failed = ids.length) := by
  obtain ⟨hsum, hle, heq⟩ := getBatchStatus_ok_counts store batchId ids b h
  refine ⟨hsum, by omega, ?_⟩
  intro hall
  have := heq hall
  exact ⟨this, by omega⟩

/-- Witness for C7 at a concrete input: both children of a 2-batch
present, `1 + 1 + 0 + 0 = 2 = k`. -/
theorem c7_witness :
    getBatchStatus storeBoth "b" ["1", "2"] = .ok batchBothResult
    ∧ batchBothResult.completed + batchBothResult.processing
        + batchBothResult.pending + batchBothResult.failed = batchBothResult.total
    ∧ batchBothResult.total = (["1", "2"] : List String).length := by
  have h : getBatchStatus storeBoth "b" ["1", "2"] = .ok batchBothResult := by rfl
  have hc := c7_batch_counts storeBoth "b" ["1", "2"] batchBothResult h
  exact ⟨h, hc.1, (hc.2.2 (by decide)).1⟩

/-- C10: every status the query paths expose is one of the four public
values — `mapState` totalizes the queue states, sending `waiting` and
`delayed` to `pending` (first conjunct), always landing in the
four-value type (second conjunct), and defaulting every unknown state
to `pending` (third conjunct) — and consequently the four aggregate
counts of every successful `getBatchStatus` answer sum exactly to its
`total` (fourth conjunct). -/
theorem c10_status_totalization (s : String) (store : String → Option StoredJob)
    (batchId : String) (ids : List String) (b : BatchStatus) :
    (mapState "waiting" = .pending ∧ mapState "delayed" = .pending)
    ∧ (mapState s = .pending ∨ mapState s = .processing ∨
        mapState s = .completed ∨ mapState s = .failed)
    ∧ (s ∉ (["waiting", "delayed", "active", "completed", "failed"] : List String) →
        mapState s = .pending)
    ∧ (getBatchStatus store batchId ids = .ok b →
        b.completed + b.processing + b.pending + b.failed = b.total) := by
  refine ⟨⟨rfl, rfl⟩, ?_, ?_, ?_⟩
  · cases h : mapState s with
    | pending => exact Or.inl rfl
    | processing => exact Or.inr (Or.inl rfl)
    | completed => exact Or.inr (Or.inr (Or.inl rfl))
    | failed => exact Or.inr (Or.inr (Or.inr rfl))
  · intro hs
    unfold mapState
    split <;> simp_all
  · intro h
    exact (getBatchStatus_ok_counts store batchId ids b h).1

/-- Witness for C10 at concrete inputs: the unknown queue state
`"stalled"` maps to `pending`, and the `storeBoth` batch answer's
counts sum to its total. -/
theorem c10_witness :
    mapState "stalled" = .pending
    ∧ batchBothResult.completed + batchBothResult.processing
        + batchBothResult.pending + batchBothResult.failed = batchBothResult.total := by
  exact ⟨(c10_status_totalization "stalled" storeBoth "b" ["1", "2"] batchBothResult).2.2.1
           (by decide),
         (c10_status_totalization "stalled" storeBoth "b" ["1", "2"] batchBothResult).2.2.2
           (by rfl)⟩

/-- C8: the job-listing cursor round-trips — decoding an encoded page
token recovers exactly the offset that was encoded, for every offset
(first conjunct) — and decoding is total with every malformed token
(any token whose base64/JSON decode fails) yielding offset 0 instead
of an error (second conjunct, the source's `catch` branch). -/
theorem c8_cursor_roundtrip :
    (∀ offset : Nat, decodeStartIndex (encodePageToken offset) = offset)
    ∧ (∀ pageToken : String,
        (base64DecodeChars pageToken.toList).bind parseOffsetBytes = none →
        decodeStartIndex pageToken = 0) := by
  constructor
  · intro n
    unfold encodePageToken decodeStartIndex
    rw [show (String.mk (base64EncodeBytes (offsetJsonBytes n))).toList =
          base64EncodeBytes (offsetJsonBytes n) from rfl]
    rw [base64_roundtrip _ (offsetJsonBytes_lt n)]
    show (parseOffsetBytes (offsetJsonBytes n)).getD 0 = n
    rw [parseOffset_offsetJson]
    rfl
  · intro tok h
    unfold decodeStartIndex
    cases hb : base64DecodeChars tok.toList with
    | none => rfl
    | some bs =>
      rw [hb] at h
      simp only [Option.some_bind] at h
      show (parseOffsetBytes bs).getD 0 = 0
      rw [h]
      rfl

/-- Witness for C8 at concrete inputs: offset 50 round-trips through
the token `eyJvZmZzZXQiOjUwfQ==`, and the malformed token
`not-base64!` resets to offset 0. -/
theorem c8_witness :
    decodeStartIndex (encodePageToken 50) = 50
    ∧ decodeStartIndex "not-base64!" = 0 := by
  exact ⟨c8_cursor_roundtrip.1 50, c8_cursor_roundtrip.2 "not-base64!" (by rfl)⟩

end DispatchService

